import Mathlib

/-!
Shallow embedding of the grid-visualization engine: the coordinate-system
detector, scale mapper, view-transform stack, position-collision resolver,
hit tester and the detail-lookup API dispatch, translated from the two
canvas components and the grid API module of the repository.  Real-number
arithmetic stands in for JS doubles; JS `Map` objects become association
lists; the DOM/canvas side effects are dropped and only the numeric state
they carry is kept.
-/

open scoped Classical

noncomputable section

namespace GridViz

/-- A single point, in geographic degrees or planar units (source `Location`). -/
structure Location where
  latitude : ℝ
  longitude : ℝ

/-- A grid component (source `Component`); opaque extra fields are dropped. -/
structure Component where
  id : String
  type : String
  hasLocation : Bool
  location : Location

/-- A polyline, in practice a two-point segment (source `Line`). -/
structure Line where
  points : List Location

/-- The atomic unit of rendering (source `GridData`). -/
structure GridData where
  feederId : String
  components : List Component
  lines : List Line

/-- Derived per-dataset correction info (source `CoordSystemInfo`). -/
structure CoordSystemInfo where
  isCartesian : Bool
  rotation : ℝ
  needsYInversion : Bool

/-- Current pan/zoom state (the d3 zoom transform `{x, y, k}`). -/
structure ViewTransform where
  x : ℝ
  y : ℝ
  k : ℝ

/-- Rotation of a point by `angle` radians, the semantics of `ctx.rotate`
and of the explicit `newX = x*cos - y*sin, newY = x*sin + y*cos` formula
in `checkClick`. -/
def rotatePt (angle : ℝ) (p : ℝ × ℝ) : ℝ × ℝ :=
  (p.1 * Real.cos angle - p.2 * Real.sin angle,
   p.1 * Real.sin angle + p.2 * Real.cos angle)

/-- Source: `ctx.translate(zoom.x, zoom.y); ctx.scale(k, k)` acting on a point. -/
def zoomApply (vt : ViewTransform) (p : ℝ × ℝ) : ℝ × ℝ :=
  (vt.x + vt.k * p.1, vt.y + vt.k * p.2)

/-- Source: `checkClick`'s un-pan/un-zoom step: `(click - zoom.xy) / zoom.k`. -/
def zoomUnapply (vt : ViewTransform) (q : ℝ × ℝ) : ℝ × ℝ :=
  ((q.1 - vt.x) / vt.k, (q.2 - vt.y) / vt.k)

/-- Move to the canvas center: subtract `(w/2, h/2)`. -/
def centerShift (w h : ℝ) (p : ℝ × ℝ) : ℝ × ℝ :=
  (p.1 - w / 2, p.2 - h / 2)

/-- Move back from the canvas center: add `(w/2, h/2)`. -/
def uncenterShift (w h : ℝ) (p : ℝ × ℝ) : ℝ × ℝ :=
  (p.1 + w / 2, p.2 + h / 2)

/-- Source: `ctx.scale(1, -1)` applied only when `needsYInversion`. -/
def flipIf (b : Bool) (p : ℝ × ℝ) : ℝ × ℝ :=
  if b then (p.1, -p.2) else p

/-- Source: `ctx.rotate(rotation * PI / 180)` applied only when `rotation !== 0`. -/
def rotIf (rotation : ℝ) (p : ℝ × ℝ) : ℝ × ℝ :=
  if rotation ≠ 0 then rotatePt (rotation * Real.pi / 180) p else p

/-- Source: `checkClick`'s rotation by `-(rotation * PI / 180)` (it computes
`cos(-angle)` and `sin(-angle)`), applied only when `rotation !== 0`. -/
def unrotIf (rotation : ℝ) (p : ℝ × ℝ) : ℝ × ℝ :=
  if rotation ≠ 0 then rotatePt (-(rotation * Real.pi / 180)) p else p

/-- The point mapping of the canvas transform stack built in `drawGrid`:
`translate(zoom.x, zoom.y); scale(k); translate(w/2, h/2); rotate(rotation);
scale(1,-1) if needsYInversion; translate(-w/2, -h/2)`.  Canvas transforms
post-multiply, so the point is hit by the calls in reverse order. -/
def drawTransform (vt : ViewTransform) (cs : CoordSystemInfo) (w h : ℝ)
    (p : ℝ × ℝ) : ℝ × ℝ :=
  zoomApply vt (uncenterShift w h
    (rotIf cs.rotation (flipIf cs.needsYInversion (centerShift w h p))))

/-- The inverse mapping computed step by step inside `checkClick`:
un-pan/un-zoom, move to center, rotate by `-rotation`, negate Y if
`needsYInversion`, move back from center. -/
def inverseClickPoint (vt : ViewTransform) (cs : CoordSystemInfo) (w h : ℝ)
    (q : ℝ × ℝ) : ℝ × ℝ :=
  uncenterShift w h (flipIf cs.needsYInversion
    (unrotIf cs.rotation (centerShift w h (zoomUnapply vt q))))

theorem rotatePt_neg_rotatePt (angle : ℝ) (p : ℝ × ℝ) :
    rotatePt (-angle) (rotatePt angle p) = p := by
  obtain ⟨a, b⟩ := p
  have h := Real.sin_sq_add_cos_sq angle
  simp only [rotatePt, Real.cos_neg, Real.sin_neg, Prod.mk.injEq]
  constructor
  · linear_combination a * h
  · linear_combination b * h

theorem rotatePt_rotatePt_neg (angle : ℝ) (p : ℝ × ℝ) :
    rotatePt angle (rotatePt (-angle) p) = p := by
  have := rotatePt_neg_rotatePt (-angle) p
  rwa [neg_neg] at this

theorem zoomUnapply_zoomApply (vt : ViewTransform) (hk : vt.k ≠ 0) (p : ℝ × ℝ) :
    zoomUnapply vt (zoomApply vt p) = p := by
  obtain ⟨a, b⟩ := p
  simp only [zoomApply, zoomUnapply, Prod.mk.injEq]
  constructor <;> field_simp

theorem zoomApply_zoomUnapply (vt : ViewTransform) (hk : vt.k ≠ 0) (q : ℝ × ℝ) :
    zoomApply vt (zoomUnapply vt q) = q := by
  obtain ⟨a, b⟩ := q
  simp only [zoomApply, zoomUnapply, Prod.mk.injEq]
  constructor <;> field_simp

theorem centerShift_uncenterShift (w h : ℝ) (p : ℝ × ℝ) :
    centerShift w h (uncenterShift w h p) = p := by
  simp [centerShift, uncenterShift]

theorem uncenterShift_centerShift (w h : ℝ) (p : ℝ × ℝ) :
    uncenterShift w h (centerShift w h p) = p := by
  simp [centerShift, uncenterShift]

theorem flipIf_flipIf (b : Bool) (p : ℝ × ℝ) : flipIf b (flipIf b p) = p := by
  cases b <;> simp [flipIf]

theorem unrotIf_rotIf (r : ℝ) (p : ℝ × ℝ) : unrotIf r (rotIf r p) = p := by
  by_cases hr : r = 0 <;> simp [rotIf, unrotIf, hr, rotatePt_neg_rotatePt]

theorem rotIf_unrotIf (r : ℝ) (p : ℝ × ℝ) : rotIf r (unrotIf r p) = p := by
  by_cases hr : r = 0 <;> simp [rotIf, unrotIf, hr, rotatePt_rotatePt_neg]

/-- The `checkClick` inverse undoes the `drawGrid` forward transform exactly. -/
theorem inverseClickPoint_drawTransform (vt : ViewTransform)
    (cs : CoordSystemInfo) (w h : ℝ) (p : ℝ × ℝ) (hk : vt.k ≠ 0) :
    inverseClickPoint vt cs w h (drawTransform vt cs w h p) = p := by
  simp only [drawTransform, inverseClickPoint]
  rw [zoomUnapply_zoomApply vt hk, centerShift_uncenterShift, unrotIf_rotIf,
    flipIf_flipIf, uncenterShift_centerShift]

/-- The `drawGrid` forward transform undoes the `checkClick` inverse exactly. -/
theorem drawTransform_inverseClickPoint (vt : ViewTransform)
    (cs : CoordSystemInfo) (w h : ℝ) (q : ℝ × ℝ) (hk : vt.k ≠ 0) :
    drawTransform vt cs w h (inverseClickPoint vt cs w h q) = q := by
  simp only [drawTransform, inverseClickPoint]
  rw [centerShift_uncenterShift, flipIf_flipIf, rotIf_unrotIf,
    uncenterShift_centerShift, zoomApply_zoomUnapply vt hk]

/-- C1: for every data-space point `p`, every `ViewTransform` `(x, y, k)` with
nonzero zoom and every `CoordinateSystemInfo` whose rotation is 0 or 90,
applying the Renderer's forward transform (translate by `(x,y)`, scale by `k`,
translate to canvas center, rotate by the rotation, `scale(1,-1)` when
`needsYInversion`, translate back) and then the Hit Tester's inverse mapping
recovers `p` to within `1e-6` in each coordinate (in fact exactly, in the
real-number model). -/
theorem C1_transform_round_trip (p : ℝ × ℝ) (vt : ViewTransform)
    (cs : CoordSystemInfo) (w h : ℝ) (hk : vt.k ≠ 0)
    (hrot : cs.rotation = 0 ∨ cs.rotation = 90) :
    |(inverseClickPoint vt cs w h (drawTransform vt cs w h p)).1 - p.1| ≤ 1e-6 ∧
    |(inverseClickPoint vt cs w h (drawTransform vt cs w h p)).2 - p.2| ≤ 1e-6 := by
  rw [inverseClickPoint_drawTransform vt cs w h p hk]
  norm_num

/-- Witness for C1 at `p = (3, 4)`, `vt = (5, 7, 2)`, a Cartesian 90°-rotated
Y-inverted coordinate system and a 100×50 canvas. -/
theorem C1_transform_round_trip_witness :
    (2 : ℝ) ≠ 0 ∧ ((90 : ℝ) = 0 ∨ (90 : ℝ) = 90) ∧
    (|(inverseClickPoint ⟨5, 7, 2⟩ ⟨true, 90, true⟩ 100 50
        (drawTransform ⟨5, 7, 2⟩ ⟨true, 90, true⟩ 100 50 (3, 4))).1 - (3 : ℝ)| ≤ 1e-6 ∧
     |(inverseClickPoint ⟨5, 7, 2⟩ ⟨true, 90, true⟩ 100 50
        (drawTransform ⟨5, 7, 2⟩ ⟨true, 90, true⟩ 100 50 (3, 4))).2 - (4 : ℝ)| ≤ 1e-6) :=
  ⟨by norm_num, Or.inr rfl,
    C1_transform_round_trip (3, 4) ⟨5, 7, 2⟩ ⟨true, 90, true⟩ 100 50
      (by norm_num) (Or.inr rfl)⟩

/-! ## Scale Mapper (`computeScales`) -/

/-- A d3 `scaleLinear` with a two-point domain and range. -/
structure LinearScale where
  d0 : ℝ
  d1 : ℝ
  r0 : ℝ
  r1 : ℝ

/-- Apply a linear scale to a value (d3's linear interpolation). -/
def LinearScale.app (s : LinearScale) (t : ℝ) : ℝ :=
  s.r0 + (t - s.d0) / (s.d1 - s.d0) * (s.r1 - s.r0)

/-- Source: `d3.extent`: `none` on an empty list, otherwise `(min, max)`. -/
def extent : List ℝ → Option (ℝ × ℝ)
  | [] => none
  | a :: rest => some (rest.foldl min a, rest.foldl max a)

/-- Source: `computeScales` from the feature-complete canvas component.  It takes the
longitude/latitude extents over ALL components (located or not), returns
without updating when any extent endpoint is falsy (JS `!x`: absent or `0`),
pads each extent by 10% of its span, and maps X onto `[0, width]` and Y onto
`[height, 0]`.  `none` models the early `return` that leaves the previous
scales in place. -/
def computeScales (data : GridData) (width height : ℝ) :
    Option (LinearScale × LinearScale) :=
  match extent (data.components.map fun c => c.location.longitude),
        extent (data.components.map fun c => c.location.latitude) with
  | some (x0, x1), some (y0, y1) =>
    if x0 = 0 ∨ x1 = 0 ∨ y0 = 0 ∨ y1 = 0 then none
    else
      some (⟨x0 - (x1 - x0) * 0.1, x1 + (x1 - x0) * 0.1, 0, width⟩,
            ⟨y0 - (y1 - y0) * 0.1, y1 + (y1 - y0) * 0.1, height, 0⟩)
  | _, _ => none

/-- The module-level `xScale`/`yScale` state after one `computeScales` call:
an aborted call keeps the previous scales. -/
def updateScales (data : GridData) (width height : ℝ)
    (prev : Option (LinearScale × LinearScale)) :
    Option (LinearScale × LinearScale) :=
  match computeScales data width height with
  | none => prev
  | some s => some s

/-- C8: calling the Scale Mapper twice in succession with identical dataset
and canvas size produces identical `xScale`/`yScale` mappings — the second
call leaves the scale state exactly where the first call put it, with no
hidden state carried across the two calls. -/
theorem C8_scale_mapper_idempotent (data : GridData) (width height : ℝ)
    (prev : Option (LinearScale × LinearScale)) :
    updateScales data width height (updateScales data width height prev) =
      updateScales data width height prev := by
  unfold updateScales
  cases h : computeScales data width height <;> simp

/-- Two located components whose longitudes are 0 and 10 — a perfectly
ordinary dataset whose x-extent starts at the falsy value `0`. -/
def dExtentZero : GridData :=
  ⟨"feederZ", [⟨"A", "Breaker", true, ⟨5, 0⟩⟩, ⟨"B", "Breaker", true, ⟨10, 10⟩⟩], []⟩

/-- One located component at longitude 10 plus one `hasLocation:false`
component whose (supposedly ignored) location has longitude 1000. -/
def dUnlocated : GridData :=
  ⟨"feederU", [⟨"A", "Breaker", true, ⟨6, 10⟩⟩, ⟨"B", "Breaker", false, ⟨7, 1000⟩⟩], []⟩

/-- C6 (code bug): the Scale Mapper is specified to take extents over exactly
the `hasLocation` components and to abort only when no located components
exist.  The code instead (a) aborts on `dExtentZero`, which has two located
components, because the JS guard `!xExtent[0]` treats the legitimate extent
endpoint `0` as falsy, and (b) on `dUnlocated` folds the `hasLocation:false`
component's longitude 1000 into the extent, producing x-domain
`[-89, 1099]` instead of the located-only degenerate `[10, 10]`. -/
theorem C6_scale_mapper_divergence :
    (dExtentZero.components.filter fun c => c.hasLocation).length = 2 ∧
    computeScales dExtentZero 100 100 = none ∧
    computeScales dUnlocated 100 100 =
      some (⟨-89, 1099, 0, 100⟩, ⟨5.9, 7.1, 100, 0⟩) := by
  refine ⟨rfl, ?_, ?_⟩
  · norm_num [computeScales, extent, dExtentZero, min_def, max_def]
  · norm_num [computeScales, extent, dUnlocated, min_def, max_def]

/-! ## Position Collision Resolver (`getOffsetPosition`, `componentPositions`) -/

/-- Key of the `componentPositions` map.  The source keys by the template
string `x,y`; distinct finite doubles stringify distinctly, so the pair
itself is a faithful key. -/
abbrev PosKey := ℝ × ℝ

/-- The `componentPositions: Map<string, string[]>` module state, as an
association list in insertion order. -/
abbrev PosIndex := List (PosKey × List String)

/-- Source: `Map.get` on the position index. -/
def lookupIndex : PosIndex → PosKey → Option (List String)
  | [], _ => none
  | (k, v) :: rest, key => if k = key then some v else lookupIndex rest key

/-- Source: `Map.set` on the position index (replaces in place, appends when new). -/
def setIndex : PosIndex → PosKey → List String → PosIndex
  | [], key, v => [(key, v)]
  | (k, w) :: rest, key, v =>
    if k = key then (k, v) :: rest else (k, w) :: setIndex rest key v

/-- JS `Array.prototype.indexOf`: first index of `cid`, `none` when absent. -/
def idxOf (cid : String) : List String → Option Nat
  | [] => none
  | a :: rest => if a = cid then some 0 else (idxOf cid rest).map (· + 1)

/-- Source: `getOffsetPosition(x, y, componentId)`: ensure the key has an entry; if
the component id is not yet recorded there, push it and return `(x, y)`
unchanged; otherwise return the point offset by 1 pixel at angle
`index * PI / 5`.  Returns the adjusted point and the updated
`componentPositions` state. -/
def getOffsetPosition (x y : ℝ) (cid : String) (idx : PosIndex) :
    (ℝ × ℝ) × PosIndex :=
  let key : PosKey := (x, y)
  let idx1 := if (lookupIndex idx key).isSome then idx else setIndex idx key []
  let lst := (lookupIndex idx1 key).getD []
  match idxOf cid lst with
  | none => ((x, y), setIndex idx1 key (lst ++ [cid]))
  | some i =>
    ((x + Real.cos ((i : ℝ) * 1 * Real.pi / 5) * 1,
      y + Real.sin ((i : ℝ) * 1 * Real.pi / 5) * 1), idx1)

/-- C2 (code bug): resolving component "A" and then component "B" at the same
base pixel position `(100, 100)`, starting from an empty `componentPositions`
map (one fresh dataset render, each component resolved once), returns the
UNCHANGED point `(100, 100)` for BOTH — `getOffsetPosition` pushes a
first-seen id and returns the base point, so colliding components get equal
draw positions, while the spec requires B at the distinct offset position
`(100 + cos(π/5), 100 + sin(π/5))`. -/
theorem C2_collision_resolver_returns_equal_positions :
    (getOffsetPosition 100 100 "A" []).1 = ((100 : ℝ), (100 : ℝ)) ∧
    (getOffsetPosition 100 100 "B" (getOffsetPosition 100 100 "A" []).2).1 =
      ((100 : ℝ), (100 : ℝ)) ∧
    ((100 : ℝ) + Real.cos (Real.pi / 5) * 1, (100 : ℝ) + Real.sin (Real.pi / 5) * 1) ≠
      ((100 : ℝ), (100 : ℝ)) := by
  have hsin : 0 < Real.sin (Real.pi / 5) :=
    Real.sin_pos_of_pos_of_lt_pi (by positivity)
      (div_lt_self Real.pi_pos (by norm_num))
  refine ⟨?_, ?_, ?_⟩
  · simp [getOffsetPosition, lookupIndex, setIndex, idxOf]
  · simp [getOffsetPosition, lookupIndex, setIndex, idxOf]
  · intro hEq
    have := congrArg Prod.snd hEq
    simp only at this
    nlinarith [hsin]

/-- The long-lived module caches of the visualization component. -/
structure RenderCaches where
  componentPositions : PosIndex
  coordinateCache : List (String × List Component)

/-- The reactive `feederId` block runs `clearCoordinateCache()` when a new
dataset is loaded: it clears `coordinateCache` and nothing else. -/
def onFeederChange (s : RenderCaches) : RenderCaches :=
  { s with coordinateCache := [] }

/-- Cache state after rendering a first dataset in which component "A" sits
at base pixel position `(100, 100)`. -/
def cachesAfterFirstRender : RenderCaches :=
  { componentPositions := (getOffsetPosition 100 100 "A" []).2,
    coordinateCache := [("100.0000,100.0000", [])] }

/-- C7 (code bug): on a dataset (feederId) change the code clears only
`coordinateCache`; the `componentPositions` index survives, so when the new
dataset's component "A" is resolved at the same base position `(100, 100)`
the stale index entry makes `getOffsetPosition` return the offset point
`(101, 100)` instead of the original `(100, 100)` — a stale entry from the
previous dataset influences an offset computed for the new dataset. -/
theorem C7_stale_position_index_leaks :
    (onFeederChange cachesAfterFirstRender).componentPositions =
      cachesAfterFirstRender.componentPositions ∧
    (onFeederChange cachesAfterFirstRender).componentPositions ≠ [] ∧
    (getOffsetPosition 100 100 "A"
        (onFeederChange cachesAfterFirstRender).componentPositions).1 =
      ((101 : ℝ), (100 : ℝ)) ∧
    ((101 : ℝ), (100 : ℝ)) ≠ ((100 : ℝ), (100 : ℝ)) := by
  refine ⟨rfl, ?_, ?_, ?_⟩
  · simp [onFeederChange, cachesAfterFirstRender, getOffsetPosition,
      lookupIndex, setIndex, idxOf]
  · norm_num [onFeederChange, cachesAfterFirstRender, getOffsetPosition,
      lookupIndex, setIndex, idxOf]
  · intro hEq
    have := congrArg Prod.fst hEq
    norm_num at this

/-! ## Hit Tester (`checkClick`) -/

/-- The result popup (source `PopupState`); the source field `show` is called
`visible` here because `show` is a Lean keyword. -/
structure PopupState where
  visible : Bool
  x : ℝ
  y : ℝ
  nodes : List Component

/-- The parts of a `MouseEvent` that `checkClick` reads. -/
structure ClickEvent where
  clientX : ℝ
  clientY : ℝ
  ctrlKey : Bool

/-- The parts of `canvas.getBoundingClientRect()` that `checkClick` reads. -/
structure Rect where
  left : ℝ
  top : ℝ

/-- Source: `clickX`/`clickY`: the pointer position relative to the canvas. -/
def clickPoint (ev : ClickEvent) (rect : Rect) : ℝ × ℝ :=
  (ev.clientX - rect.left, ev.clientY - rect.top)

/-- The component filter in both `drawGrid` and `checkClick`:
`!selectedComponentTypes.size || selectedComponentTypes.has(comp.type)`. -/
def passesFilter (sel : List String) (c : Component) : Prop :=
  sel = [] ∨ c.type ∈ sel

/-- Source: `Math.sqrt(dx*dx + dy*dy)` between two points. -/
def dist2 (p q : ℝ × ℝ) : ℝ :=
  Real.sqrt ((p.1 - q.1) ^ 2 + (p.2 - q.2) ^ 2)

/-- The filter body of `checkClick`: located, filter-visible components whose
distance from the inverse-transformed click to their base scaled position
`(xScale(longitude), yScale(latitude))` is at most `20 / zoom.k`. -/
def clickedNodes (data : GridData) (sel : List String) (xs ys : LinearScale)
    (vt : ViewTransform) (cs : CoordSystemInfo) (w h : ℝ)
    (click : ℝ × ℝ) : List Component :=
  let t := inverseClickPoint vt cs w h click
  data.components.filter fun comp =>
    comp.hasLocation &&
    decide (passesFilter sel comp) &&
    decide (dist2 t (xs.app comp.location.longitude, ys.app comp.location.latitude) ≤
      20 / vt.k)

/-- Source: `checkClick`: bail out on a Ctrl-click, otherwise collect the hit
components; a nonempty hit set opens the popup at the raw click position
listing all matches, an empty one hides it. -/
def checkClick (data : GridData) (sel : List String) (xs ys : LinearScale)
    (vt : ViewTransform) (cs : CoordSystemInfo) (w h : ℝ)
    (ev : ClickEvent) (rect : Rect) (popup : PopupState) : PopupState :=
  if ev.ctrlKey then popup
  else
    let click := clickPoint ev rect
    let nodes := clickedNodes data sel xs ys vt cs w h click
    if nodes = [] then { popup with visible := false }
    else { visible := true, x := click.1, y := click.2, nodes := nodes }

/-- The distance, on the transformed canvas, between the raw click position
and the position at which the component's base point is drawn. -/
def onScreenDistance (vt : ViewTransform) (cs : CoordSystemInfo) (w h : ℝ)
    (xs ys : LinearScale) (click : ℝ × ℝ) (c : Component) : ℝ :=
  dist2 click
    (drawTransform vt cs w h (xs.app c.location.longitude, ys.app c.location.latitude))

theorem mem_clickedNodes_iff (data : GridData) (sel : List String)
    (xs ys : LinearScale) (vt : ViewTransform) (cs : CoordSystemInfo)
    (w h : ℝ) (click : ℝ × ℝ) (c : Component) :
    c ∈ clickedNodes data sel xs ys vt cs w h click ↔
      c ∈ data.components ∧ c.hasLocation = true ∧ passesFilter sel c ∧
        dist2 (inverseClickPoint vt cs w h click)
          (xs.app c.location.longitude, ys.app c.location.latitude) ≤ 20 / vt.k := by
  simp [clickedNodes, List.mem_filter, and_assoc]

/-- The composed draw transform scales squared distances by `k²`: the
coordinate-system correction (translations, optional rotation, optional Y
flip) is an isometry and the zoom stage multiplies lengths by `k`. -/
theorem sumsq_drawTransform_sub (vt : ViewTransform) (cs : CoordSystemInfo)
    (w h : ℝ) (a b : ℝ × ℝ) :
    ((drawTransform vt cs w h a).1 - (drawTransform vt cs w h b).1) ^ 2 +
      ((drawTransform vt cs w h a).2 - (drawTransform vt cs w h b).2) ^ 2 =
      vt.k ^ 2 * ((a.1 - b.1) ^ 2 + (a.2 - b.2) ^ 2) := by
  obtain ⟨a1, a2⟩ := a
  obtain ⟨b1, b2⟩ := b
  have hsc := Real.sin_sq_add_cos_sq (cs.rotation * Real.pi / 180)
  simp only [drawTransform, zoomApply, uncenterShift, rotIf, flipIf,
    centerShift, rotatePt]
  by_cases hr : cs.rotation = 0 <;> cases hF : cs.needsYInversion <;>
    simp only [hr, hF, if_pos, if_neg, ite_true, ite_false, not_true,
      not_false_iff, ne_eq, Bool.false_eq_true, Bool.true_eq_false]
  · ring
  · ring
  · linear_combination (vt.k ^ 2 * ((a1 - b1) ^ 2 + (a2 - b2) ^ 2)) * hsc
  · linear_combination (vt.k ^ 2 * ((a1 - b1) ^ 2 + (a2 - b2) ^ 2)) * hsc

/-- For a positive zoom, the screen distance between a raw click point and a
drawn point equals `k` times the data-space distance between the
inverse-transformed click and the point. -/
theorem dist2_drawTransform (vt : ViewTransform) (cs : CoordSystemInfo)
    (w h : ℝ) (hk : 0 < vt.k) (click q : ℝ × ℝ) :
    dist2 click (drawTransform vt cs w h q) =
      vt.k * dist2 (inverseClickPoint vt cs w h click) q := by
  conv_lhs =>
    rw [← drawTransform_inverseClickPoint vt cs w h click (ne_of_gt hk)]
  unfold dist2
  rw [sumsq_drawTransform_sub, Real.sqrt_mul (sq_nonneg vt.k),
    Real.sqrt_sq hk.le]

/-- C3 (amended): for every dataset, filter set, view state and non-Ctrl
pointer event, the Hit Tester returns exactly the components that have
`hasLocation`, pass the active type filter, and lie within data-space
distance `20 / k` of the inverse-transformed pointer; when the set is empty
the popup is hidden, otherwise a popup listing all matches opens at the raw
click position.  Consequently every hit component's on-screen distance to the
click is at most `20` pixels at every zoom (at `k = 2` the bound is 20px on
screen — not 10px as originally claimed; the 10px figure is the data-space
radius `20 / 2`). -/
theorem C3_hit_tester_amended (data : GridData) (sel : List String)
    (xs ys : LinearScale) (vt : ViewTransform) (cs : CoordSystemInfo)
    (w h : ℝ) (ev : ClickEvent) (rect : Rect) (popup : PopupState)
    (hc : ev.ctrlKey = false) (hk : 0 < vt.k) :
    (∀ c, c ∈ clickedNodes data sel xs ys vt cs w h (clickPoint ev rect) ↔
        c ∈ data.components ∧ c.hasLocation = true ∧ passesFilter sel c ∧
          dist2 (inverseClickPoint vt cs w h (clickPoint ev rect))
            (xs.app c.location.longitude, ys.app c.location.latitude) ≤
            20 / vt.k) ∧
    (clickedNodes data sel xs ys vt cs w h (clickPoint ev rect) = [] →
      checkClick data sel xs ys vt cs w h ev rect popup =
        { popup with visible := false }) ∧
    (clickedNodes data sel xs ys vt cs w h (clickPoint ev rect) ≠ [] →
      checkClick data sel xs ys vt cs w h ev rect popup =
        ⟨true, (clickPoint ev rect).1, (clickPoint ev rect).2,
          clickedNodes data sel xs ys vt cs w h (clickPoint ev rect)⟩) ∧
    (∀ c ∈ clickedNodes data sel xs ys vt cs w h (clickPoint ev rect),
      onScreenDistance vt cs w h xs ys (clickPoint ev rect) c ≤ 20) := by
  refine ⟨fun c => mem_clickedNodes_iff data sel xs ys vt cs w h _ c, ?_, ?_, ?_⟩
  · intro hnil
    simp [checkClick, hc, hnil]
  · intro hne
    simp [checkClick, hc, hne]
  · intro c hcmem
    have hd := ((mem_clickedNodes_iff data sel xs ys vt cs w h _ c).1 hcmem).2.2.2
    unfold onScreenDistance
    rw [dist2_drawTransform vt cs w h hk]
    have := mul_le_mul_of_nonneg_left hd hk.le
    calc vt.k * dist2 (inverseClickPoint vt cs w h (clickPoint ev rect))
          (xs.app c.location.longitude, ys.app c.location.latitude) ≤
          vt.k * (20 / vt.k) := this
      _ = 20 := by field_simp

/-- The identity-like linear scale with domain `[0, 1]` and range `[0, 1]`. -/
def idScale : LinearScale := ⟨0, 1, 0, 1⟩

/-- A located component at data point `(0, 0)`. -/
def hitComp : Component := ⟨"H", "Breaker", true, ⟨0, 0⟩⟩

/-- A dataset containing only `hitComp`. -/
def hitData : GridData := ⟨"fh", [hitComp], []⟩

theorem sqrt_of_sq_eq (x : ℝ) (hx : 0 ≤ x) (y : ℝ) (hy : y = x ^ 2) :
    Real.sqrt y = x := by
  rw [hy, Real.sqrt_sq hx]

/-- C3 counterexample: with zoom `k = 2`, identity scales, no rotation or
inversion and pan `(0,0)`, clicking at `(15, 0)` hits the component drawn at
screen position `(0, 0)` — its on-screen distance to the click is 15px,
strictly more than the 10px the original claim allows. -/
theorem C3_counterexample :
    hitComp ∈ clickedNodes hitData [] idScale idScale ⟨0, 0, 2⟩
        ⟨false, 0, false⟩ 100 100 (15, 0) ∧
    onScreenDistance ⟨0, 0, 2⟩ ⟨false, 0, false⟩ 100 100 idScale idScale
        (15, 0) hitComp = 15 ∧
    ¬ ((15 : ℝ) ≤ 10) := by
  have hinv : inverseClickPoint ⟨0, 0, 2⟩ ⟨false, 0, false⟩ 100 100
      ((15 : ℝ), (0 : ℝ)) = (7.5, 0) := by
    norm_num [inverseClickPoint, zoomUnapply, centerShift, unrotIf, flipIf,
      uncenterShift]
  have happ : idScale.app 0 = 0 := by
    norm_num [idScale, LinearScale.app]
  refine ⟨?_, ?_, by norm_num⟩
  · rw [mem_clickedNodes_iff]
    refine ⟨by simp [hitData], rfl, Or.inl rfl, ?_⟩
    show dist2 (inverseClickPoint ⟨0, 0, 2⟩ ⟨false, 0, false⟩ 100 100 (15, 0))
      (idScale.app hitComp.location.longitude,
       idScale.app hitComp.location.latitude) ≤ 20 / 2
    have : hitComp.location = ⟨0, 0⟩ := rfl
    rw [this, hinv]
    show dist2 (7.5, 0) (idScale.app 0, idScale.app 0) ≤ 20 / 2
    rw [happ]
    unfold dist2
    rw [show ((7.5 : ℝ) - 0) ^ 2 + ((0 : ℝ) - 0) ^ 2 = 7.5 ^ 2 by norm_num,
      Real.sqrt_sq (by norm_num : (0 : ℝ) ≤ 7.5)]
    norm_num
  · have hdraw : drawTransform ⟨0, 0, 2⟩ ⟨false, 0, false⟩ 100 100
        ((0 : ℝ), (0 : ℝ)) = (0, 0) := by
      norm_num [drawTransform, zoomApply, centerShift, rotIf, flipIf,
        uncenterShift]
    unfold onScreenDistance
    have : hitComp.location = ⟨0, 0⟩ := rfl
    rw [this]
    show dist2 (15, 0) (drawTransform ⟨0, 0, 2⟩ ⟨false, 0, false⟩ 100 100
      (idScale.app 0, idScale.app 0)) = 15
    rw [happ, hdraw]
    unfold dist2
    rw [show ((15 : ℝ) - 0) ^ 2 + ((0 : ℝ) - 0) ^ 2 = 15 ^ 2 by norm_num,
      Real.sqrt_sq (by norm_num : (0 : ℝ) ≤ 15)]

/-- Witness for the amended C3 theorem at a concrete dataset, zoom 2 and a
click at canvas position `(15, 0)`. -/
theorem C3_hit_tester_amended_witness :
    ((⟨15, 0, false⟩ : ClickEvent).ctrlKey = false) ∧ ((0 : ℝ) < 2) ∧
    (∀ c ∈ clickedNodes hitData [] idScale idScale ⟨0, 0, 2⟩ ⟨false, 0, false⟩
        100 100 (clickPoint ⟨15, 0, false⟩ ⟨0, 0⟩),
      onScreenDistance ⟨0, 0, 2⟩ ⟨false, 0, false⟩ 100 100 idScale idScale
        (clickPoint ⟨15, 0, false⟩ ⟨0, 0⟩) c ≤ 20) :=
  ⟨rfl, by norm_num,
    (C3_hit_tester_amended hitData [] idScale idScale ⟨0, 0, 2⟩
      ⟨false, 0, false⟩ 100 100 ⟨15, 0, false⟩ ⟨0, 0⟩ ⟨false, 0, 0, []⟩
      rfl (by norm_num)).2.2.2⟩

/-- C10: the Hit Tester measures distance against a component's base scaled
position `(xScale(longitude), yScale(latitude))`, so two located,
filter-visible components at the same location are hit by exactly the same
clicks — even though, once both ids are recorded at their shared key, the
collision resolver draws them at distinct offset positions. -/
theorem C10_hit_region_uses_base_position (data : GridData) (sel : List String)
    (xs ys : LinearScale) (vt : ViewTransform) (cs : CoordSystemInfo)
    (w h : ℝ) (click : ℝ × ℝ) (a b : Component)
    (ha : a ∈ data.components) (hb : b ∈ data.components)
    (hla : a.hasLocation = true) (hlb : b.hasLocation = true)
    (hloc : a.location = b.location)
    (hfa : passesFilter sel a) (hfb : passesFilter sel b)
    (hid : a.id ≠ b.id) :
    (a ∈ clickedNodes data sel xs ys vt cs w h click ↔
      b ∈ clickedNodes data sel xs ys vt cs w h click) ∧
    (∀ x0 y0 : ℝ,
      (getOffsetPosition x0 y0 a.id [((x0, y0), [a.id, b.id])]).1 ≠
        (getOffsetPosition x0 y0 b.id [((x0, y0), [a.id, b.id])]).1) := by
  have hsin : 0 < Real.sin (Real.pi / 5) :=
    Real.sin_pos_of_pos_of_lt_pi (by positivity)
      (div_lt_self Real.pi_pos (by norm_num))
  constructor
  · rw [mem_clickedNodes_iff, mem_clickedNodes_iff, hloc]
    simp [ha, hb, hla, hlb, hfa, hfb]
  · intro x0 y0
    have e1 : (getOffsetPosition x0 y0 a.id [((x0, y0), [a.id, b.id])]).1 =
        (x0 + 1, y0) := by
      simp [getOffsetPosition, lookupIndex, idxOf, Real.cos_zero, Real.sin_zero]
    have e2 : (getOffsetPosition x0 y0 b.id [((x0, y0), [a.id, b.id])]).1 =
        (x0 + Real.cos (Real.pi / 5) * 1, y0 + Real.sin (Real.pi / 5) * 1) := by
      simp [getOffsetPosition, lookupIndex, idxOf, hid]
    rw [e1, e2]
    intro hEq
    have h2 := congrArg Prod.snd hEq
    simp only at h2
    nlinarith [hsin]

/-- A located component "A" at data point `(0, 0)`. -/
def stackA : Component := ⟨"A", "Breaker", true, ⟨0, 0⟩⟩

/-- A located component "B" at the same data point `(0, 0)`. -/
def stackB : Component := ⟨"B", "Breaker", true, ⟨0, 0⟩⟩

/-- A dataset with two components stacked at one location. -/
def stackData : GridData := ⟨"fs", [stackA, stackB], []⟩

/-- Witness for C10 on a concrete two-component stacked dataset. -/
theorem C10_hit_region_uses_base_position_witness :
    stackA ∈ stackData.components ∧ stackB ∈ stackData.components ∧
    stackA.hasLocation = true ∧ stackB.hasLocation = true ∧
    stackA.location = stackB.location ∧ stackA.id ≠ stackB.id ∧
    (stackA ∈ clickedNodes stackData [] idScale idScale ⟨0, 0, 1⟩
        ⟨false, 0, false⟩ 100 100 (0, 0) ↔
      stackB ∈ clickedNodes stackData [] idScale idScale ⟨0, 0, 1⟩
        ⟨false, 0, false⟩ 100 100 (0, 0)) :=
  ⟨by simp [stackData], by simp [stackData], rfl, rfl, rfl, by decide,
    (C10_hit_region_uses_base_position stackData [] idScale idScale ⟨0, 0, 1⟩
      ⟨false, 0, false⟩ 100 100 (0, 0) stackA stackB (by simp [stackData])
      (by simp [stackData]) rfl rfl rfl (Or.inl rfl) (Or.inl rfl)
      (by decide)).1⟩

/-! ## Coordinate System Detector (`detectCoordinateSystem`, `detectRotation`) -/

/-- Source: `checkCoordinateType`'s Cartesian test:
`Math.abs(longitude) > 180 || Math.abs(latitude) > 90`. -/
def isCartesianPt (p : Location) : Prop :=
  180 < |p.longitude| ∨ 90 < |p.latitude|

/-- Every located component point followed by every line point, in dataset
order — the pool both the sampling pass and the rotation pass walk. -/
def allSpatialPoints (comps : List Component) (lines : List Line) :
    List Location :=
  (comps.filter fun c => c.hasLocation).map (fun c => c.location) ++
    lines.flatMap fun l => l.points

/-- The up-to-20 points sampled by `detectCoordinateSystem`: located
component points first in dataset order, then line points while the total
stays below `MAX_POINTS_TO_CHECK = 20`. -/
def sampledPoints (data : GridData) : List Location :=
  let compPts :=
    ((data.components.filter fun c => c.hasLocation).map fun c => c.location).take 20
  compPts ++ (data.lines.flatMap fun l => l.points).take (20 - compPts.length)

/-- Source: `cartesianPoints` after the sampling pass. -/
def cartesianCount (data : GridData) : ℕ :=
  (sampledPoints data).countP fun p => decide (isCartesianPt p)

/-- Source: `geographicPoints` after the sampling pass. -/
def geographicCount (data : GridData) : ℕ :=
  (sampledPoints data).countP fun p => decide (¬ isCartesianPt p)

/-- Running minimum of `f` over points, seeded like the JS fold. -/
def runMin (f : Location → ℝ) (a : ℝ) (ps : List Location) : ℝ :=
  ps.foldl (fun m q => min m (f q)) a

/-- Running maximum of `f` over points, seeded like the JS fold. -/
def runMax (f : Location → ℝ) (a : ℝ) (ps : List Location) : ℝ :=
  ps.foldl (fun m q => max m (f q)) a

/-- Source: `detectRotation`: bounding box over all located component points and all
line points; with positive width and height and an aspect quotient above 3
or below 0.33 the grid is deemed rotated 90 degrees.  With no points the JS
box is `[∞, -∞]`, its width is not positive, and the result is 0, matched
here by the empty case. -/
def detectRotation (comps : List Component) (lines : List Line) : ℝ :=
  match allSpatialPoints comps lines with
  | [] => 0
  | p :: ps =>
    let minX := runMin (fun q => q.longitude) p.longitude ps
    let maxX := runMax (fun q => q.longitude) p.longitude ps
    let minY := runMin (fun q => q.latitude) p.latitude ps
    let maxY := runMax (fun q => q.latitude) p.latitude ps
    if 0 < maxX - minX ∧ 0 < maxY - minY ∧
        (3 < (maxX - minX) / (maxY - minY) ∨ (maxX - minX) / (maxY - minY) < 0.33)
    then 90 else 0

/-- Source: `detectCoordinateSystem`: majority vote of the sampled points (ties give
geographic), `needsYInversion = isCartesian`, and the rotation inference. -/
def detectCoordinateSystem (data : GridData) : CoordSystemInfo :=
  let isCart : Bool := decide (geographicCount data < cartesianCount data)
  { isCartesian := isCart
    rotation := detectRotation data.components data.lines
    needsYInversion := isCart }

theorem sampledPoints_subset (data : GridData) :
    sampledPoints data ⊆ allSpatialPoints data.components data.lines := by
  intro p hp
  unfold sampledPoints at hp
  unfold allSpatialPoints
  rcases List.mem_append.1 hp with hmem | hmem
  · exact List.mem_append_left _ (List.take_subset _ _ hmem)
  · exact List.mem_append_right _ (List.take_subset _ _ hmem)

theorem sampledPoints_ne_nil (data : GridData)
    (hne : allSpatialPoints data.components data.lines ≠ []) :
    sampledPoints data ≠ [] := by
  unfold allSpatialPoints at hne
  unfold sampledPoints
  cases hcs : (data.components.filter fun c => c.hasLocation).map
      (fun c => c.location) with
  | cons q qs => simp [hcs]
  | nil =>
    cases hls : data.lines.flatMap (fun l => l.points) with
    | cons q qs => simp [hcs, hls]
    | nil => exact absurd (by rw [hcs, hls]; rfl) hne

/-- C4: `isCartesian` is true exactly when the sampled out-of-range points
strictly outnumber the in-range ones (ties give geographic), and
`needsYInversion = isCartesian`; hence a dataset whose every spatial
coordinate is in geographic range yields `false`/`false`, and one with at
least one point whose every spatial coordinate is out of range yields
`true`/`true`. -/
theorem C4_coordinate_system_detection (data : GridData) :
    ((detectCoordinateSystem data).isCartesian = true ↔
      geographicCount data < cartesianCount data) ∧
    ((detectCoordinateSystem data).needsYInversion =
      (detectCoordinateSystem data).isCartesian) ∧
    ((∀ p ∈ allSpatialPoints data.components data.lines,
        |p.longitude| ≤ 180 ∧ |p.latitude| ≤ 90) →
      (detectCoordinateSystem data).isCartesian = false ∧
      (detectCoordinateSystem data).needsYInversion = false) ∧
    ((∀ p ∈ allSpatialPoints data.components data.lines,
        180 < |p.longitude| ∨ 90 < |p.latitude|) →
      allSpatialPoints data.components data.lines ≠ [] →
      (detectCoordinateSystem data).isCartesian = true ∧
      (detectCoordinateSystem data).needsYInversion = true) := by
  refine ⟨by simp [detectCoordinateSystem], rfl, ?_, ?_⟩
  · intro hall
    have hzero : cartesianCount data = 0 := by
      rw [cartesianCount, List.countP_eq_zero]
      intro p hp
      have := hall p (sampledPoints_subset data hp)
      simp only [decide_eq_true_eq, isCartesianPt]
      push_neg
      exact ⟨this.1, this.2⟩
    constructor <;> simp [detectCoordinateSystem, hzero]
  · intro hall hne
    have hgeo : geographicCount data = 0 := by
      rw [geographicCount, List.countP_eq_zero]
      intro p hp
      have := hall p (sampledPoints_subset data hp)
      simp only [decide_eq_true_eq, isCartesianPt, not_not]
      exact this
    have hcart : 0 < cartesianCount data := by
      rw [cartesianCount, List.countP_pos_iff]
      obtain ⟨p, hp⟩ := List.exists_mem_of_ne_nil _ (sampledPoints_ne_nil data hne)
      exact ⟨p, hp, by
        simpa [isCartesianPt] using hall p (sampledPoints_subset data hp)⟩
    constructor <;> simp [detectCoordinateSystem, hgeo, hcart]

/-- A dataset whose single spatial point is far out of geographic range. -/
def dOutRange : GridData := ⟨"fo", [⟨"A", "Breaker", true, ⟨500, 999⟩⟩], []⟩

/-- Witness for C4 on a dataset whose every coordinate is out of range. -/
theorem C4_coordinate_system_detection_witness :
    (∀ p ∈ allSpatialPoints dOutRange.components dOutRange.lines,
      180 < |p.longitude| ∨ 90 < |p.latitude|) ∧
    allSpatialPoints dOutRange.components dOutRange.lines ≠ [] ∧
    ((detectCoordinateSystem dOutRange).isCartesian = true ∧
      (detectCoordinateSystem dOutRange).needsYInversion = true) := by
  have hall : ∀ p ∈ allSpatialPoints dOutRange.components dOutRange.lines,
      180 < |p.longitude| ∨ 90 < |p.latitude| := by
    intro p hp
    simp only [allSpatialPoints, dOutRange] at hp
    norm_num at hp
    rw [hp]
    left
    rw [abs_of_pos] <;> norm_num
  have hne : allSpatialPoints dOutRange.components dOutRange.lines ≠ [] := by
    simp [allSpatialPoints, dOutRange]
  exact ⟨hall, hne, (C4_coordinate_system_detection dOutRange).2.2.2 hall hne⟩

theorem runMin_le_init (f : Location → ℝ) (ps : List Location) :
    ∀ a : ℝ, runMin f a ps ≤ a := by
  induction ps with
  | nil => intro a; exact le_refl a
  | cons q qs ih =>
    intro a
    calc runMin f a (q :: qs) = runMin f (min a (f q)) qs := rfl
      _ ≤ min a (f q) := ih _
      _ ≤ a := min_le_left _ _

theorem runMin_le_mem (f : Location → ℝ) (ps : List Location) :
    ∀ (a : ℝ) (q : Location), q ∈ ps → runMin f a ps ≤ f q := by
  induction ps with
  | nil => intro a q hq; exact absurd hq (List.not_mem_nil q)
  | cons r rs ih =>
    intro a q hq
    rcases List.mem_cons.1 hq with hq | hq
    · subst hq
      calc runMin f a (q :: rs) = runMin f (min a (f q)) rs := rfl
        _ ≤ min a (f q) := runMin_le_init f rs _
        _ ≤ f q := min_le_right _ _
    · exact ih _ q hq

theorem init_le_runMax (f : Location → ℝ) (ps : List Location) :
    ∀ a : ℝ, a ≤ runMax f a ps := by
  induction ps with
  | nil => intro a; exact le_refl a
  | cons q qs ih =>
    intro a
    calc a ≤ max a (f q) := le_max_left _ _
      _ ≤ runMax f (max a (f q)) qs := ih _
      _ = runMax f a (q :: qs) := rfl

theorem mem_le_runMax (f : Location → ℝ) (ps : List Location) :
    ∀ (a : ℝ) (q : Location), q ∈ ps → f q ≤ runMax f a ps := by
  induction ps with
  | nil => intro a q hq; exact absurd hq (List.not_mem_nil q)
  | cons r rs ih =>
    intro a q hq
    rcases List.mem_cons.1 hq with hq | hq
    · subst hq
      calc f q ≤ max a (f q) := le_max_right _ _
        _ ≤ runMax f (max a (f q)) rs := init_le_runMax f rs _
        _ = runMax f a (q :: rs) := rfl
    · exact ih _ q hq

/-- A wide dataset: one line segment spanning longitudes 0..100 and
latitudes 0..10, giving a 100×10 bounding box. -/
def wideData : GridData := ⟨"fw", [], [⟨[⟨0, 0⟩, ⟨10, 100⟩]⟩]⟩

/-- A flat dataset: one horizontal line segment, zero-height bounding box. -/
def flatData : GridData := ⟨"ff", [], [⟨[⟨5, 0⟩, ⟨5, 100⟩]⟩]⟩

/-- C5: `detectRotation` returns 90 exactly when the bounding box over all
located component points and all line points (whose sides really are the
extrema of the point pool, conjuncts 4–5) has strictly positive width and
height and width/height above 3 or below 0.33, and 0 otherwise; an empty
point pool gives 0, the concrete zero-height dataset gives 0, and the
concrete 100×10 dataset gives 90. -/
theorem C5_rotation_inference :
    (∀ (comps : List Component) (lines : List Line) (p : Location)
        (ps : List Location), allSpatialPoints comps lines = p :: ps →
      (detectRotation comps lines = 90 ↔
        (0 < runMax (fun q => q.longitude) p.longitude ps -
              runMin (fun q => q.longitude) p.longitude ps ∧
         0 < runMax (fun q => q.latitude) p.latitude ps -
              runMin (fun q => q.latitude) p.latitude ps ∧
         (3 < (runMax (fun q => q.longitude) p.longitude ps -
                runMin (fun q => q.longitude) p.longitude ps) /
              (runMax (fun q => q.latitude) p.latitude ps -
                runMin (fun q => q.latitude) p.latitude ps) ∨
          (runMax (fun q => q.longitude) p.longitude ps -
                runMin (fun q => q.longitude) p.longitude ps) /
              (runMax (fun q => q.latitude) p.latitude ps -
                runMin (fun q => q.latitude) p.latitude ps) < 0.33)))) ∧
    (∀ comps lines, allSpatialPoints comps lines = [] →
      detectRotation comps lines = 0) ∧
    (∀ comps lines, detectRotation comps lines = 90 ∨
      detectRotation comps lines = 0) ∧
    (∀ (f : Location → ℝ) (p : Location) (ps : List Location),
      ∀ q ∈ p :: ps, runMin f p.longitude ps ≤ max p.longitude (f q) ∧
        runMin f (f p) ps ≤ f q ∧ f q ≤ runMax f (f p) ps) ∧
    detectRotation flatData.components flatData.lines = 0 ∧
    detectRotation wideData.components wideData.lines = 90 := by
  refine ⟨?_, ?_, ?_, ?_, ?_, ?_⟩
  · intro comps lines p ps hall
    unfold detectRotation
    rw [hall]
    dsimp only
    by_cases hC : 0 < runMax (fun q => q.longitude) p.longitude ps -
          runMin (fun q => q.longitude) p.longitude ps ∧
        0 < runMax (fun q => q.latitude) p.latitude ps -
          runMin (fun q => q.latitude) p.latitude ps ∧
        (3 < (runMax (fun q => q.longitude) p.longitude ps -
              runMin (fun q => q.longitude) p.longitude ps) /
            (runMax (fun q => q.latitude) p.latitude ps -
              runMin (fun q => q.latitude) p.latitude ps) ∨
          (runMax (fun q => q.longitude) p.longitude ps -
              runMin (fun q => q.longitude) p.longitude ps) /
            (runMax (fun q => q.latitude) p.latitude ps -
              runMin (fun q => q.latitude) p.latitude ps) < 0.33)
    · rw [if_pos hC]
      exact iff_of_true rfl hC
    · rw [if_neg hC]
      exact iff_of_false (by norm_num) hC
  · intro comps lines hall
    unfold detectRotation
    rw [hall]
  · intro comps lines
    unfold detectRotation
    cases allSpatialPoints comps lines with
    | nil => right; rfl
    | cons p ps =>
      dsimp only
      by_cases hC : 0 < runMax (fun q => q.longitude) p.longitude ps -
            runMin (fun q => q.longitude) p.longitude ps ∧
          0 < runMax (fun q => q.latitude) p.latitude ps -
            runMin (fun q => q.latitude) p.latitude ps ∧
          (3 < (runMax (fun q => q.longitude) p.longitude ps -
                runMin (fun q => q.longitude) p.longitude ps) /
              (runMax (fun q => q.latitude) p.latitude ps -
                runMin (fun q => q.latitude) p.latitude ps) ∨
            (runMax (fun q => q.longitude) p.longitude ps -
                runMin (fun q => q.longitude) p.longitude ps) /
              (runMax (fun q => q.latitude) p.latitude ps -
                runMin (fun q => q.latitude) p.latitude ps) < 0.33)
      · left; rw [if_pos hC]
      · right; rw [if_neg hC]
  · intro f p ps q hq
    rcases List.mem_cons.1 hq with hq' | hq'
    · subst hq'
      exact ⟨le_trans (runMin_le_init f ps _) (le_max_left _ _),
        runMin_le_init f ps _, init_le_runMax f ps _⟩
    · exact ⟨le_trans (runMin_le_mem f ps _ q hq') (le_max_right _ _),
        runMin_le_mem f ps _ q hq', mem_le_runMax f ps _ q hq'⟩
  · norm_num [detectRotation, allSpatialPoints, flatData, runMin, runMax,
      min_def, max_def]
  · norm_num [detectRotation, allSpatialPoints, wideData, runMin, runMax,
      min_def, max_def]

/-- Witness for C5: the characterization instantiated on the concrete
100×10 dataset. -/
theorem C5_rotation_inference_witness :
    allSpatialPoints wideData.components wideData.lines =
      ⟨0, 0⟩ :: [⟨10, 100⟩] ∧
    (detectRotation wideData.components wideData.lines = 90 ↔
      (0 < runMax (fun q => q.longitude) (0 : ℝ) [⟨10, 100⟩] -
            runMin (fun q => q.longitude) (0 : ℝ) [⟨10, 100⟩] ∧
       0 < runMax (fun q => q.latitude) (0 : ℝ) [⟨10, 100⟩] -
            runMin (fun q => q.latitude) (0 : ℝ) [⟨10, 100⟩] ∧
       (3 < (runMax (fun q => q.longitude) (0 : ℝ) [⟨10, 100⟩] -
              runMin (fun q => q.longitude) (0 : ℝ) [⟨10, 100⟩]) /
            (runMax (fun q => q.latitude) (0 : ℝ) [⟨10, 100⟩] -
              runMin (fun q => q.latitude) (0 : ℝ) [⟨10, 100⟩]) ∨
        (runMax (fun q => q.longitude) (0 : ℝ) [⟨10, 100⟩] -
              runMin (fun q => q.longitude) (0 : ℝ) [⟨10, 100⟩]) /
            (runMax (fun q => q.latitude) (0 : ℝ) [⟨10, 100⟩] -
              runMin (fun q => q.latitude) (0 : ℝ) [⟨10, 100⟩]) < 0.33))) :=
  ⟨rfl, C5_rotation_inference.1 wideData.components wideData.lines
    ⟨0, 0⟩ [⟨10, 100⟩] rfl⟩

/-! ## Detail lookup (`getComponentDetails` in the grid API module) -/

/-- The CIM component type enumeration, as enumerated by the color table of
the visualization component. -/
inductive CIMComponentType
  | ACLineSegment
  | Breaker
  | ConnectivityNode
  | EnergyConsumer
  | EnergySource
  | Fuse
  | LinearShuntCompensator
  | LoadBreakSwitch
  | BatteryUnit
  | PhotovoltaicUnit
  | PowerTransformer
  | RatioTapChanger
  | Recloser
  | SynchronousMachine
  | TransformerTank
deriving DecidableEq

/-- The printed name of a component type (the TS enum's string value). -/
def typeName : CIMComponentType → String
  | .ACLineSegment => "ACLineSegment"
  | .Breaker => "Breaker"
  | .ConnectivityNode => "ConnectivityNode"
  | .EnergyConsumer => "EnergyConsumer"
  | .EnergySource => "EnergySource"
  | .Fuse => "Fuse"
  | .LinearShuntCompensator => "LinearShuntCompensator"
  | .LoadBreakSwitch => "LoadBreakSwitch"
  | .BatteryUnit => "BatteryUnit"
  | .PhotovoltaicUnit => "PhotovoltaicUnit"
  | .PowerTransformer => "PowerTransformer"
  | .RatioTapChanger => "RatioTapChanger"
  | .Recloser => "Recloser"
  | .SynchronousMachine => "SynchronousMachine"
  | .TransformerTank => "TransformerTank"

/-- The `switch (componentType)` endpoint mapping of `getComponentDetails`;
`none` is the `default:` arm.  `ConnectivityNode` and `TransformerTank` have
no endpoint. -/
def endpointFor : CIMComponentType → Option String
  | .PowerTransformer => some "/grid/transformers/"
  | .RatioTapChanger => some "/grid/regulators/"
  | .ACLineSegment => some "/grid/lines/"
  | .EnergyConsumer => some "/grid/consumers/"
  | .BatteryUnit => some "/grid/batteries/"
  | .PhotovoltaicUnit => some "/grid/photovoltaics/"
  | .SynchronousMachine => some "/grid/synchronousmachines/"
  | .EnergySource => some "/grid/energysources/"
  | .LinearShuntCompensator => some "/grid/linearshuntcompensators/"
  | .LoadBreakSwitch => some "/grid/switches/"
  | .Breaker => some "/grid/switches/"
  | .Recloser => some "/grid/switches/"
  | .Fuse => some "/grid/switches/"
  | .ConnectivityNode => none
  | .TransformerTank => none

/-- What `fetch` hands back: the pieces `getComponentDetails` reads. -/
structure ApiResponse where
  ok : Bool
  status : Nat
  dataStatus : String
  hasData : Bool
  payload : String
  message : Option String

/-- The distinct error conditions `getComponentDetails` can throw:
`Unsupported component type: <t>` (before any request), `API returned
<status>` (HTTP failure), and the body's `message || 'Unknown error'`
(API-level failure). -/
inductive DetailError
  | unsupportedType (t : String)
  | httpStatus (status : Nat)
  | apiMessage (msg : String)
deriving DecidableEq

/-- Source: `getComponentDetails(componentId, componentType)` over an abstract
network `net`: the endpoint switch throws the unsupported-type error from
its `default:` arm before any fetch; otherwise one fetch is issued and its
failure modes map to the other two errors.  The second result component
lists the requests issued. -/
def getComponentDetails (cid : String) (ctype : CIMComponentType)
    (net : String → ApiResponse) : Except DetailError String × List String :=
  match endpointFor ctype with
  | none => (Except.error (DetailError.unsupportedType (typeName ctype)), [])
  | some ep =>
    let url := ep ++ cid
    let res := net url
    if res.ok = false then
      (Except.error (DetailError.httpStatus res.status), [url])
    else if res.dataStatus = "success" ∧ res.hasData = true then
      (Except.ok res.payload, [url])
    else
      (Except.error (DetailError.apiMessage (res.message.getD "Unknown error")), [url])

/-- C9: for every component type outside the endpoint mapping,
`getComponentDetails` throws the explicit unsupported-type error without
issuing any network request; that error is distinct (as a value, for every
status and message) from the HTTP-failure and API-failure errors; and no
call ever issues more than one request (no retry). -/
theorem C9_unsupported_type_detail_lookup (cid : String)
    (ctype : CIMComponentType) (net : String → ApiResponse)
    (hm : endpointFor ctype = none) :
    (getComponentDetails cid ctype net).1 =
      Except.error (DetailError.unsupportedType (typeName ctype)) ∧
    (getComponentDetails cid ctype net).2 = [] ∧
    (∀ s : Nat, (DetailError.unsupportedType (typeName ctype) : DetailError) ≠
      DetailError.httpStatus s) ∧
    (∀ m : String, (DetailError.unsupportedType (typeName ctype) : DetailError) ≠
      DetailError.apiMessage m) ∧
    (∀ (cid2 : String) (ct2 : CIMComponentType) (net2 : String → ApiResponse),
      (getComponentDetails cid2 ct2 net2).2.length ≤ 1) := by
  refine ⟨?_, ?_, fun s => by simp, fun m => by simp, ?_⟩
  · simp [getComponentDetails, hm]
  · simp [getComponentDetails, hm]
  · intro cid2 ct2 net2
    unfold getComponentDetails
    cases hep : endpointFor ct2 with
    | none => simp
    | some ep =>
      dsimp only
      split_ifs <;> simp

/-- A stub network that would answer every request successfully — the
unsupported-type path never consults it. -/
def netStub : String → ApiResponse :=
  fun _ => ⟨true, 200, "success", true, "payload", none⟩

/-- Witness for C9 at the unmapped type `ConnectivityNode`. -/
theorem C9_unsupported_type_detail_lookup_witness :
    endpointFor CIMComponentType.ConnectivityNode = none ∧
    (getComponentDetails "mrid-1" CIMComponentType.ConnectivityNode netStub).1 =
      Except.error (DetailError.unsupportedType "ConnectivityNode") ∧
    (getComponentDetails "mrid-1" CIMComponentType.ConnectivityNode netStub).2 = [] :=
  ⟨rfl,
    (C9_unsupported_type_detail_lookup "mrid-1" CIMComponentType.ConnectivityNode
      netStub rfl).1,
    (C9_unsupported_type_detail_lookup "mrid-1" CIMComponentType.ConnectivityNode
      netStub rfl).2.1⟩

end GridViz
